import Mathlib

/-!
Shallow embedding of the Phantom-Wallet demo application's session-lifecycle
logic (src/components/ConnectButton.tsx, src/app/index.tsx, and the modal
variant of the connect button).  Event handlers are modelled as pure state
transformers `State → State × List Effect`; the outcome of each external SDK
call (connect, signMessage, disconnect, getBalance) is passed in as an
explicit parameter, since those calls live outside this repository.
-/

namespace PhantomWallet

/-- JS-style substring test: `s.includes(pat)` from the handlers' catch
branches (`error.message.includes('cancelled')`). -/
def strIncludes (s pat : String) : Bool :=
  decide (pat.data <:+: s.data)

/-- JS optional-chaining form `error?.message?.includes(pat)` coerced to a
boolean: an absent message yields `false`. -/
def optIncludes (m : Option String) (pat : String) : Bool :=
  match m with
  | none => false
  | some s => strIncludes s pat

/-- JS truthiness of an optional string (`error?.message` used as a
condition): absent and empty strings are falsy. -/
def strTruthy (m : Option String) : Bool :=
  match m with
  | none => false
  | some s => !(s == "")

/-- Observable side effects emitted by the handlers: blocking alerts,
console logging, router navigation, modal opening, clipboard writes. -/
inductive Effect where
  | alert (title message : String)
  | consoleError (tag : String)
  | routerPush (path : String)
  | routerReplace (path : String)
  | modalOpen
  | copyClipboard (text : String)
deriving DecidableEq, Repr

/-- Recognizes a blocking-alert effect. -/
def isAlertEffect : Effect → Bool
  | .alert _ _ => true
  | _ => false

/-- Recognizes a `router.push` effect. -/
def isPushEffect : Effect → Bool
  | .routerPush _ => true
  | _ => false

/-- Recognizes a navigation effect (`router.push` or `router.replace`). -/
def isNavEffect : Effect → Bool
  | .routerPush _ => true
  | .routerReplace _ => true
  | _ => false

/-- The alerts among a handler's emitted effects, in order. -/
def alertsOf (es : List Effect) : List Effect :=
  es.filter isAlertEffect

/-- Number of blocking alerts among a handler's emitted effects. -/
def alertCount (es : List Effect) : Nat :=
  (alertsOf es).length

/-- True when some emitted effect is a `router.push`. -/
def hasPush (es : List Effect) : Bool :=
  es.any isPushEffect

/-- True when some emitted effect is a navigation. -/
def hasNav (es : List Effect) : Bool :=
  es.any isNavEffect

/-- Authentication providers offered by `ConnectButton` (`type AuthProvider
= 'google' | 'apple'`). -/
inductive AuthProvider where
  | google
  | apple
deriving DecidableEq, Repr

/-- Result of the external SDK call `connect({ provider })`: it resolves, or
rejects with an error whose optional `message` field we record. -/
inductive ConnectOutcome where
  | success
  | failure (message : Option String)
deriving DecidableEq, Repr

/-- Component state of `ConnectButton` (src/components/ConnectButton.tsx):
`activeProvider` and `userError` `useState` hooks. -/
structure ConnectState where
  activeProvider : Option AuthProvider
  userError : Option String
deriving DecidableEq, Repr

/-- Initial `ConnectButton` state: both hooks start at `null`. -/
def initConnectState : ConnectState :=
  { activeProvider := none, userError := none }

/-- Embedding of `handleConnect` (src/components/ConnectButton.tsx lines
35-51): sets the active provider, clears the user error, awaits
`connect({provider})`; on success pushes `/wallet`; on failure logs, and
alerts with the message only when the message is truthy and does not
contain `cancelled`; the `finally` block clears the active provider. -/
def handleConnect (provider : AuthProvider) (outcome : ConnectOutcome)
    (s : ConnectState) : ConnectState × List Effect :=
  let s1 : ConnectState := { s with activeProvider := some provider, userError := none }
  match outcome with
  | .success =>
      ({ s1 with activeProvider := none }, [Effect.routerPush "/wallet"])
  | .failure msg =>
      if strTruthy msg && !(optIncludes msg "cancelled") then
        ({ s1 with userError := msg, activeProvider := none },
         [Effect.consoleError "Connection failed:",
          Effect.alert "Connection Failed" (msg.getD "")])
      else
        ({ s1 with activeProvider := none },
         [Effect.consoleError "Connection failed:"])

/-- Chain types of the SDK's `AddressType` enumeration used in
src/app/index.tsx (`AddressType.solana`, `AddressType.ethereum`). -/
inductive ChainType where
  | solana
  | ethereum
deriving DecidableEq, Repr

/-- One entry of the SDK's `addresses` array: a chain type plus address. -/
structure AddressEntry where
  addressType : ChainType
  address : String
deriving DecidableEq, Repr

/-- Embedding of the account selection in src/app/index.tsx lines 133-134:
`addresses?.find(addr => addr.addressType === AddressType.<chain>)` — the
first entry matching the requested chain type, `none` when absent. -/
def selectAccount (addresses : List AddressEntry) (chain : ChainType) :
    Option AddressEntry :=
  addresses.find? (fun a => a.addressType == chain)

/-- Component state of `WalletInfo` (src/app/index.tsx): the `solBalance`,
`isLoadingBalance` and `isSigning` `useState` hooks.  The external RPC's
decimal balance is modelled as a scaled integer (ten-thousandths), the
precision `toFixed(4)` renders. -/
structure WalletState where
  solBalance : Option Int
  isLoadingBalance : Bool
  isSigning : Bool
deriving DecidableEq, Repr

/-- Initial `WalletInfo` state: `useState(null)`, `useState(false)`,
`useState(false)`. -/
def initWalletState : WalletState :=
  { solBalance := none, isLoadingBalance := false, isSigning := false }

/-- Left-pads the fractional part to four digits, as `toFixed(4)` does. -/
def padFrac4 (n : Nat) : String :=
  let d := toString n
  String.mk (List.replicate (4 - d.length) '0') ++ d

/-- Rendering of the scaled-integer balance with four decimals, the
fixed-point counterpart of JS `solBalance.toFixed(4)`. -/
def toFixed4 (v : Int) : String :=
  (if v < 0 then "-" else "") ++
    toString (v.natAbs / 10000) ++ "." ++ padFrac4 (v.natAbs % 10000)

/-- The balance text of the Solana card (src/app/index.tsx line 266):
`solBalance?.toFixed(4) ?? '0.0000'`. -/
def balanceDisplay (b : Option Int) : String :=
  match b with
  | none => "0.0000"
  | some v => toFixed4 v

/-- Embedding of `fetchBalance` (src/app/index.tsx lines 150-160).  The
external `getBalance(address)` call's outcome is the `outcome` parameter;
the catch branch swallows the error (logging only), so the embedding is a
total function — no exception reaches the caller.  The `finally` block
always clears the loading flag. -/
def fetchBalance (address : String) (outcome : Except Unit Int)
    (s : WalletState) : WalletState × List Effect :=
  let s1 : WalletState := { s with isLoadingBalance := true }
  match outcome with
  | .ok bal =>
      ({ s1 with solBalance := some bal, isLoadingBalance := false }, [])
  | .error _ =>
      ({ s1 with isLoadingBalance := false },
       [Effect.consoleError "Failed to fetch balance:"])

/-- Embedding of `handleCopy` (src/app/index.tsx lines 162-165): clipboard
write then a confirmation alert. -/
def handleCopy (address chain : String) : List Effect :=
  [Effect.copyClipboard address,
   Effect.alert "Copied!" (chain ++ " address copied to clipboard")]

/-- Result of an external per-chain `signMessage` / `signPersonalMessage`
call: a signature string, or a rejection carrying an optional message. -/
inductive SignOutcome where
  | success (signature : String)
  | failure (message : Option String)
deriving DecidableEq, Repr

/-- The alert body of a failed sign attempt:
`error?.message || 'Signing failed'` — absent and empty messages fall back
to the generic text. -/
def signAlertMsg (m : Option String) : String :=
  match m with
  | none => "Signing failed"
  | some s => if s == "" then "Signing failed" else s

/-- The effects of the try/catch body shared by both sign handlers
(src/app/index.tsx lines 170-177 and 186-192): a success alert with the
first 16 characters of the signature, a suppressed alert when the failure
message contains `cancelled`, an error alert otherwise. -/
def signOutcomeEffects (outcome : SignOutcome) : List Effect :=
  match outcome with
  | .success sig =>
      [Effect.alert "Signed! ✓" ("Signature: " ++ sig.take 16 ++ "...")]
  | .failure msg =>
      if optIncludes msg "cancelled" then []
      else [Effect.alert "Error" (signAlertMsg msg)]

/-- The guard of `handleSignSolanaMessage` (src/app/index.tsx line 168):
`!isSolanaAvailable || !solana` inverted — the body runs only when the
chain is available and the capability object is present. -/
def solanaSignGuard (isSolanaAvailable solanaPresent : Bool) : Bool :=
  isSolanaAvailable && solanaPresent

/-- The guard of `handleSignEthereumMessage` (src/app/index.tsx line 184):
`!isEthereumAvailable || !ethereum || !ethereumAccount?.address` inverted —
the address must also be present and nonempty (JS truthiness). -/
def ethereumSignGuard (isEthereumAvailable ethereumPresent : Bool)
    (ethereumAddress : Option String) : Bool :=
  isEthereumAvailable && ethereumPresent && strTruthy ethereumAddress

/-- The state reached right after `setIsSigning(true)` in a sign handler
whose guard passed: the pending sub-state of a sign attempt. -/
def signBegin (s : WalletState) : WalletState :=
  { s with isSigning := true }

/-- The try/catch/finally tail of a sign handler, run from the pending
state: emits the outcome's effects and the `finally` block clears the
signing flag. -/
def signFinish (outcome : SignOutcome) (s : WalletState) :
    WalletState × List Effect :=
  ({ s with isSigning := false }, signOutcomeEffects outcome)

/-- Embedding of `handleSignSolanaMessage` (src/app/index.tsx lines
167-181): guarded no-op when Solana is unavailable, otherwise the
begin/finish sequence above. -/
def handleSignSolanaMessage (isSolanaAvailable solanaPresent : Bool)
    (outcome : SignOutcome) (s : WalletState) : WalletState × List Effect :=
  if solanaSignGuard isSolanaAvailable solanaPresent then
    signFinish outcome (signBegin s)
  else (s, [])

/-- Embedding of `handleSignEthereumMessage` (src/app/index.tsx lines
183-197): guarded no-op when Ethereum is unavailable or no address is
present, otherwise the begin/finish sequence above. -/
def handleSignEthereumMessage (isEthereumAvailable ethereumPresent : Bool)
    (ethereumAddress : Option String) (outcome : SignOutcome)
    (s : WalletState) : WalletState × List Effect :=
  if ethereumSignGuard isEthereumAvailable ethereumPresent ethereumAddress then
    signFinish outcome (signBegin s)
  else (s, [])

/-- The `disabled` expression of the Solana sign button (src/app/index.tsx
line 277): `isSigning || !isSolanaAvailable`. -/
def solanaSignDisabled (isSigning isSolanaAvailable : Bool) : Bool :=
  isSigning || !isSolanaAvailable

/-- The `disabled` expression of the Ethereum sign button (src/app/index.tsx
line 310): `isSigning || !isEthereumAvailable`. -/
def ethereumSignDisabled (isSigning isEthereumAvailable : Bool) : Bool :=
  isSigning || !isEthereumAvailable

/-- Sign sub-states of a chain card named by the dashboard state machine of
the spec. -/
inductive SignSubState where
  | signIdle
  | signPending
deriving DecidableEq, Repr

/-- The Solana card's sign sub-state, read off the component state: pending
exactly while the shared `isSigning` flag is set. -/
def solanaSignSubState (s : WalletState) : SignSubState :=
  if s.isSigning then .signPending else .signIdle

/-- The Ethereum card's sign sub-state, read off the component state: the
source has a single `isSigning` hook, so it reads the same flag. -/
def ethereumSignSubState (s : WalletState) : SignSubState :=
  if s.isSigning then .signPending else .signIdle

/-- Embedding of `handleDisconnect` (src/app/index.tsx lines 199-206): on a
resolved `disconnect()` it replaces to `/`; a rejection is caught before the
navigation line runs, so it only logs.  Component state is untouched. -/
def handleDisconnect (outcome : Except Unit Unit) : List Effect :=
  match outcome with
  | .ok _ => [Effect.routerReplace "/"]
  | .error _ => [Effect.consoleError "Disconnect failed:"]

/-- The two views of the application: the unauthenticated home screen
(route `/`) and the authenticated wallet dashboard (route `/wallet`). -/
inductive View where
  | home
  | wallet
deriving DecidableEq, Repr

/-- Route path of each view. -/
def viewPath : View → String
  | .home => "/"
  | .wallet => "/wallet"

/-- The view the session signal designates: authenticated dashboard when
connected, home screen otherwise. -/
def targetView (isConnected : Bool) : View :=
  if isConnected then .wallet else .home

/-- Embedding of the `HomeScreen` redirect effect (src/app/index.tsx lines
21-25): on a change of `isConnected`, replace to `/wallet` when connected,
otherwise do nothing. -/
def homeRedirect (isConnected : Bool) : List Effect :=
  if isConnected then [Effect.routerReplace "/wallet"] else []

/-- Embedding of the `WalletInfo` redirect effect (src/app/index.tsx lines
137-141): on a change of `isConnected`, replace to `/` when disconnected,
otherwise do nothing. -/
def walletRedirect (isConnected : Bool) : List Effect :=
  if !isConnected then [Effect.routerReplace "/"] else []

/-- The redirect effect run by whichever view is mounted when the session
signal's `isConnected` flag changes. -/
def redirectEffects : View → Bool → List Effect
  | .home, c => homeRedirect c
  | .wallet, c => walletRedirect c

/-- The delay, in milliseconds, of the auto-open timer in the modal variant
of `ConnectButton` (`setTimeout(() => { modal.open(); }, 500)`). -/
def autoOpenDelayMs : Nat := 500

/-- State of the auto-open timer machinery: whether the `setTimeout` timer
is armed, and how many `modal.open()` calls have happened. -/
structure AutoOpenState where
  timerSet : Bool
  openCalls : Nat
deriving DecidableEq, Repr

/-- Before the connect view mounts: no timer, no `open()` calls. -/
def initAutoOpen : AutoOpenState :=
  { timerSet := false, openCalls := 0 }

/-- Embedding of the mount effect of the modal `ConnectButton`
(src/unnamed/part_000 lines 25-33): when not connected and the modal is not
already opened, arm the 500 ms timer; otherwise do nothing. -/
def mountConnectView (isConnected isOpened : Bool) (s : AutoOpenState) :
    AutoOpenState :=
  if !isConnected && !isOpened then { s with timerSet := true } else s

/-- The timer's delay elapsing: an armed timer fires `modal.open()` once and
disarms; an unarmed timer does nothing. -/
def timerElapse (s : AutoOpenState) : AutoOpenState :=
  if s.timerSet then { timerSet := false, openCalls := s.openCalls + 1 }
  else s

/-- The effect cleanup on component teardown (`return () =>
clearTimeout(timer)`): the timer is disarmed without firing. -/
def teardownConnectView (s : AutoOpenState) : AutoOpenState :=
  { s with timerSet := false }

/-- UI-level connect mutual exclusion (src/components/ConnectButton.tsx):
the in-flight SDK `connect` calls.  The SDK's `isConnecting` flag is set
exactly while a call is in flight, and both provider buttons carry
`disabled={isConnecting}`. -/
structure ConnMachine where
  pendingAttempts : List AuthProvider
deriving DecidableEq, Repr

/-- The `isConnecting` flag of the `useConnect` hook: some connect call is
in flight. -/
def isConnecting (m : ConnMachine) : Bool :=
  !m.pendingAttempts.isEmpty

/-- Pressing a provider button: a button disabled by `isConnecting` ignores
the press; otherwise `handleConnect` starts one SDK connect call for the
chosen provider. -/
def pressConnect (p : AuthProvider) (m : ConnMachine) : ConnMachine :=
  if isConnecting m then m else { pendingAttempts := [p] }

/-- The in-flight connect call resolving or rejecting: the attempt is
removed and `isConnecting` drops. -/
def resolveConnect (_m : ConnMachine) : ConnMachine :=
  { pendingAttempts := [] }

/-- One UI event of the connect view: a button press or the SDK call
settling. -/
inductive ConnStep : ConnMachine → ConnMachine → Prop
  | press (p : AuthProvider) (m : ConnMachine) : ConnStep m (pressConnect p m)
  | resolve (m : ConnMachine) : ConnStep m (resolveConnect m)

/-- States of the connect view reachable from the initial (no attempt)
state by UI events. -/
inductive ConnReachable : ConnMachine → Prop
  | init : ConnReachable { pendingAttempts := [] }
  | step {m m' : ConnMachine} :
      ConnReachable m → ConnStep m m' → ConnReachable m'

/-- C8: `selectAccount` returns the first address entry whose chain type
matches, and `none` exactly when no entry matches; on the two-entry example
`[(solana, A), (ethereum, B)]`, requesting ethereum yields the entry with
address `B`.  As a Lean function it is deterministic and pure by
construction. -/
theorem selectAccount_first_match (l1 l2 : List AddressEntry)
    (e : AddressEntry) (c : ChainType)
    (h1 : ∀ x ∈ l1, x.addressType ≠ c) (h2 : e.addressType = c) :
    selectAccount (l1 ++ e :: l2) c = some e ∧
    (∀ l : List AddressEntry,
      (∀ x ∈ l, x.addressType ≠ c) → selectAccount l c = none) ∧
    selectAccount [⟨.solana, "A"⟩, ⟨.ethereum, "B"⟩] .ethereum
      = some ⟨.ethereum, "B"⟩ := by
  refine ⟨?_, ?_, by decide⟩
  · induction l1 with
    | nil =>
        simp [selectAccount, List.find?_cons_of_pos, h2]
    | cons a t ih =>
        have ha : (a.addressType == c) = false := by
          simpa using h1 a (List.mem_cons_self a t)
        have ht : ∀ x ∈ t, x.addressType ≠ c := fun x hx =>
          h1 x (List.mem_cons_of_mem a hx)
        simpa [selectAccount, List.find?_cons_of_neg, ha] using ih ht
  · intro l hl
    simp only [selectAccount, List.find?_eq_none]
    intro x hx
    simpa using hl x hx

/-- C8 witness: the firstness lemma applied to the spec's concrete example,
with the singleton solana prefix as the non-matching segment. -/
theorem selectAccount_first_match_witness :
    selectAccount [⟨.solana, "A"⟩, ⟨.ethereum, "B"⟩] .ethereum
      = some ⟨.ethereum, "B"⟩ :=
  (selectAccount_first_match [⟨.solana, "A"⟩] [] ⟨.ethereum, "B"⟩ .ethereum
    (by decide) (by decide)).1

/-- C7: for every address, a `fetchBalance` failure leaves the stored
balance (hence the displayed value) unchanged, every outcome clears the
loading indicator, no outcome raises a blocking alert, and the default
display with no balance ever loaded is `0.0000`.  The embedding is a total
function, mirroring the catch branch that keeps the error from the
caller. -/
theorem fetchBalance_failure_safe (address : String) (s : WalletState) :
    (fetchBalance address (.error ()) s).1.solBalance = s.solBalance ∧
    (∀ outcome, (fetchBalance address outcome s).1.isLoadingBalance = false) ∧
    (∀ outcome, alertCount (fetchBalance address outcome s).2 = 0) ∧
    balanceDisplay none = "0.0000" := by
  refine ⟨rfl, fun outcome => ?_, fun outcome => ?_, rfl⟩ <;>
    cases outcome <;> rfl

/-- C10: when the Ethereum guard fails — the chain unavailable, the
capability object absent, or the address absent or empty — the Ethereum
sign handler returns the state unchanged with no effects, and the Solana
handler does the same when Solana is unavailable or its capability object
absent. -/
theorem sign_guard_noop (s : WalletState) (o : SignOutcome) (a p : Bool)
    (addr : Option String) :
    handleSignEthereumMessage false p addr o s = (s, []) ∧
    handleSignEthereumMessage a false addr o s = (s, []) ∧
    handleSignEthereumMessage a p none o s = (s, []) ∧
    handleSignEthereumMessage a p (some "") o s = (s, []) ∧
    handleSignSolanaMessage false p o s = (s, []) ∧
    handleSignSolanaMessage a false o s = (s, []) := by
  cases a <;> cases p <;>
    simp [handleSignEthereumMessage, handleSignSolanaMessage,
      ethereumSignGuard, solanaSignGuard, strTruthy]

/-- C9: a connect-attempt error whose message is absent or empty is fully
suppressed — no alert and no inline `userError` text — while a sign-attempt
error with an absent message still alerts with the generic fallback text
`Signing failed`. -/
theorem absent_message_error_handling (p : AuthProvider) (cs : ConnectState)
    (ws : WalletState) :
    alertsOf (handleConnect p (.failure none) cs).2 = [] ∧
    (handleConnect p (.failure none) cs).1.userError = none ∧
    alertsOf (handleConnect p (.failure (some "")) cs).2 = [] ∧
    (handleConnect p (.failure (some "")) cs).1.userError = none ∧
    alertsOf (handleSignSolanaMessage true true (.failure none) ws).2
      = [Effect.alert "Error" "Signing failed"] ∧
    alertsOf
        (handleSignEthereumMessage true true (some "0xabc") (.failure none)
          ws).2
      = [Effect.alert "Error" "Signing failed"] := by
  refine ⟨?_, ?_, ?_, ?_, ?_, ?_⟩ <;>
    simp [handleConnect, handleSignSolanaMessage, handleSignEthereumMessage,
      solanaSignGuard, ethereumSignGuard, signBegin, signFinish,
      signOutcomeEffects, signAlertMsg, strTruthy, optIncludes, strIncludes,
      alertsOf, isAlertEffect]

/-- C4: mounting the connect view while disconnected with the modal closed
arms exactly one timer with the fixed 500 ms delay; letting the delay
elapse produces exactly one `open()` call (a second elapse adds none), and
tearing the component down before the delay elapses yields zero `open()`
calls. -/
theorem auto_open_timer :
    (mountConnectView false false initAutoOpen).timerSet = true ∧
    (mountConnectView false false initAutoOpen).openCalls = 0 ∧
    (timerElapse (mountConnectView false false initAutoOpen)).openCalls
      = 1 ∧
    (timerElapse
        (timerElapse (mountConnectView false false initAutoOpen))).openCalls
      = 1 ∧
    (timerElapse
        (teardownConnectView
          (mountConnectView false false initAutoOpen))).openCalls = 0 ∧
    (teardownConnectView
        (mountConnectView false false initAutoOpen)).timerSet = false ∧
    autoOpenDelayMs = 500 := by
  decide

/-- C6: on each change of the session signal, the mounted view redirects
with the non-reversible `replace` to the view the flag designates, and does
nothing when already on it (idempotence); the session-driven redirects
never use `push`, while the user-initiated connect success is what pushes
`/wallet`, and the disconnect, sign and balance handlers never push. -/
theorem session_redirect_replace (v : View) (c : Bool) :
    redirectEffects v c
      = (if v = targetView c then []
         else [Effect.routerReplace (viewPath (targetView c))]) ∧
    hasPush (redirectEffects v c) = false ∧
    (∀ (p : AuthProvider) (s : ConnectState),
      (handleConnect p .success s).2 = [Effect.routerPush "/wallet"]) ∧
    (∀ o, hasPush (handleDisconnect o) = false) ∧
    (∀ (a b : Bool) (o : SignOutcome) (ws : WalletState),
      hasPush (handleSignSolanaMessage a b o ws).2 = false) ∧
    (∀ (addr : String) (o : Except Unit Int) (ws : WalletState),
      hasPush (fetchBalance addr o ws).2 = false) := by
  refine ⟨?_, ?_, ?_, ?_, ?_, ?_⟩
  · cases v <;> cases c <;> decide
  · cases v <;> cases c <;> decide
  · intro p s; rfl
  · intro o; cases o <;> rfl
  · intro a b o ws
    cases o with
    | success sig =>
        by_cases h : solanaSignGuard a b = true <;>
          simp [handleSignSolanaMessage, h, signFinish, signOutcomeEffects,
            hasPush, isPushEffect]
    | failure m =>
        by_cases h : solanaSignGuard a b = true <;>
          by_cases hm : optIncludes m "cancelled" = true <;>
            simp [handleSignSolanaMessage, h, hm, signFinish,
              signOutcomeEffects, hasPush, isPushEffect]
  · intro addr o ws; cases o <;> rfl

/-- C1 counterexample: a connect attempt failing with the empty message —
a message that does not contain `cancelled` — shows no alert, against the
claim that exactly one alert with that message is shown whenever the
message does not contain `cancelled`. -/
theorem connect_alert_iff_counterexample :
    strIncludes "" "cancelled" = false ∧
    alertCount
        (handleConnect .google (.failure (some "")) initConnectState).2
      = 0 := by
  decide

/-- C1 (amended): a sign-attempt error alerts exactly when its message does
not contain `cancelled` (an absent message counts as not containing it),
with the message as body or the fallback `Signing failed` when the message
is absent or empty; a connect-attempt error alerts exactly when its message
is present, nonempty and does not contain `cancelled`, with that message as
body; in every case the attempt's status returns to idle. -/
theorem error_alert_characterization (p : AuthProvider) (m : Option String)
    (cs : ConnectState) (ws : WalletState) :
    alertsOf (handleConnect p (.failure m) cs).2
      = (if strTruthy m && !(optIncludes m "cancelled") then
           [Effect.alert "Connection Failed" (m.getD "")] else []) ∧
    (∀ o, (handleConnect p o cs).1.activeProvider = none) ∧
    alertsOf (handleSignSolanaMessage true true (.failure m) ws).2
      = (if optIncludes m "cancelled" then []
         else [Effect.alert "Error" (signAlertMsg m)]) ∧
    (∀ o, (handleSignSolanaMessage true true o ws).1.isSigning = false) ∧
    (∀ a, strTruthy a = true →
      alertsOf (handleSignEthereumMessage true true a (.failure m) ws).2
        = (if optIncludes m "cancelled" then []
           else [Effect.alert "Error" (signAlertMsg m)]) ∧
      (∀ o,
        (handleSignEthereumMessage true true a o ws).1.isSigning
          = false)) := by
  refine ⟨?_, fun o => ?_, ?_, fun o => ?_, fun a ha => ⟨?_, fun o => ?_⟩⟩
  · by_cases h : (strTruthy m && !(optIncludes m "cancelled")) = true <;>
      simp [handleConnect, h, alertsOf, isAlertEffect]
  · cases o with
    | success => rfl
    | failure msg =>
        by_cases h : (strTruthy msg && !(optIncludes msg "cancelled"))
            = true <;>
          simp [handleConnect, h]
  · by_cases h : optIncludes m "cancelled" = true <;>
      simp [handleSignSolanaMessage, solanaSignGuard, signBegin, signFinish,
        signOutcomeEffects, h, alertsOf, isAlertEffect]
  · cases o <;> rfl
  · have hg : ethereumSignGuard true true a = true := by
      simp [ethereumSignGuard, ha]
    by_cases h : optIncludes m "cancelled" = true <;>
      simp [handleSignEthereumMessage, hg, signBegin, signFinish,
        signOutcomeEffects, h, alertsOf, isAlertEffect]
  · have hg : ethereumSignGuard true true a = true := by
      simp [ethereumSignGuard, ha]
    cases o <;> simp [handleSignEthereumMessage, hg, signBegin, signFinish]

/-- C1 witness: the characterization applied at provider google, message
`boom`, the initial component states, and the nonempty Ethereum address
`0xabc`. -/
theorem error_alert_characterization_witness :
    alertsOf
        (handleSignEthereumMessage true true (some "0xabc")
          (.failure (some "boom")) initWalletState).2
      = [Effect.alert "Error" "boom"] := by
  have h :=
    ((error_alert_characterization AuthProvider.google (some "boom")
        initConnectState initWalletState).2.2.2.2 (some "0xabc")
      (by decide)).1
  simpa using h

/-- C2 counterexample: when the SDK `disconnect()` call rejects, the
handler emits only the console log — no navigation effect at all — against
the claim that the UI navigates to the unauthenticated view regardless of
failure. -/
theorem disconnect_failure_counterexample :
    handleDisconnect (.error ())
      = [Effect.consoleError "Disconnect failed:"] ∧
    hasNav (handleDisconnect (.error ())) = false := by
  decide

/-- C2 (amended): on a successful disconnect the handler navigates to the
unauthenticated view with `replace`; on failure the error is only logged —
never alerted — and the handler itself performs no navigation, the return
to the unauthenticated view then depending solely on the session-signal
redirect once the SDK reports disconnected. -/
theorem disconnect_behavior :
    handleDisconnect (.ok ()) = [Effect.routerReplace "/"] ∧
    handleDisconnect (.error ())
      = [Effect.consoleError "Disconnect failed:"] ∧
    hasNav (handleDisconnect (.error ())) = false ∧
    (∀ o, alertCount (handleDisconnect o) = 0) ∧
    walletRedirect false = [Effect.routerReplace "/"] := by
  refine ⟨rfl, rfl, rfl, fun o => ?_, rfl⟩
  cases o <;> rfl

/-- C3 counterexample: from the idle dashboard state, the pending state of
a Solana sign attempt (after its `setIsSigning(true)`, before the SDK call
settles) puts the Ethereum card in the pending sign sub-state too, and the
Ethereum sign button is disabled even with Ethereum available — one card
being in SignPending does constrain the other card's sub-state. -/
theorem sign_independence_counterexample :
    solanaSignSubState (signBegin initWalletState) = .signPending ∧
    ethereumSignSubState (signBegin initWalletState) = .signPending ∧
    ethereumSignDisabled (signBegin initWalletState).isSigning true
      = true := by
  decide

/-- C3 (amended): each sign attempt follows SignIdle → SignPending →
SignIdle, with success and failure both returning to idle; but the sign
sub-state is shared between the chain cards — in every dashboard state both
cards have the same sign sub-state, and while a sign attempt is pending
both sign buttons are disabled whatever the chains' availability. -/
theorem sign_substate_shared (ws : WalletState) (o : SignOutcome)
    (a b : Bool) :
    solanaSignSubState ws = ethereumSignSubState ws ∧
    solanaSignSubState (signBegin ws) = .signPending ∧
    (handleSignSolanaMessage true true o ws).1.isSigning = false ∧
    (handleSignEthereumMessage true true (some "0xabc") o ws).1.isSigning
      = false ∧
    ethereumSignDisabled (signBegin ws).isSigning a = true ∧
    solanaSignDisabled (signBegin ws).isSigning b = true := by
  refine ⟨rfl, rfl, ?_, ?_, ?_, ?_⟩
  · cases o <;> rfl
  · cases o <;> rfl
  · simp [ethereumSignDisabled, signBegin]
  · simp [solanaSignDisabled, signBegin]

/-- One UI event preserves the at-most-one-pending-attempt bound: a press
either is ignored or installs a single attempt, and a resolution empties
the list. -/
theorem connStep_bound {m m' : ConnMachine}
    (hm : m.pendingAttempts.length ≤ 1) (hs : ConnStep m m') :
    m'.pendingAttempts.length ≤ 1 := by
  cases hs with
  | press q =>
      by_cases hc : isConnecting m = true <;> simp [pressConnect, hc, hm]
  | resolve => simp [resolveConnect]

/-- C5: every state of the connect view reachable by UI events holds at
most one in-flight connect attempt, and while one is pending a further
press of either provider button is a no-op (the buttons are disabled by
`isConnecting`). -/
theorem connect_mutex (m : ConnMachine) (h : ConnReachable m) :
    m.pendingAttempts.length ≤ 1 ∧
    (isConnecting m = true → ∀ p, pressConnect p m = m) := by
  constructor
  · induction h with
    | init => simp
    | step hr hs ih => exact connStep_bound ih hs
  · intro hc p
    simp [pressConnect, hc]

/-- C5 witness: the state with one pending google attempt is reachable by a
press from the initial state, and pressing apple there changes nothing. -/
theorem connect_mutex_witness :
    (ConnMachine.mk [AuthProvider.google]).pendingAttempts.length ≤ 1 ∧
    pressConnect AuthProvider.apple (ConnMachine.mk [AuthProvider.google])
      = ConnMachine.mk [AuthProvider.google] := by
  have hr : ConnReachable (ConnMachine.mk [AuthProvider.google]) := by
    have h1 :=
      ConnReachable.step ConnReachable.init
        (ConnStep.press AuthProvider.google (ConnMachine.mk []))
    simpa [pressConnect, isConnecting] using h1
  have h := connect_mutex (ConnMachine.mk [AuthProvider.google]) hr
  exact ⟨h.1, h.2 (by decide) AuthProvider.apple⟩

end PhantomWallet
